import Mathlib

/-!
# A shallow embedding of the samp-query protocol engine

This file embeds the core of the `samp-query` Rust library (files
`src/protocol.rs`, `src/error.rs`, `src/packet.rs`, `src/client.rs`) into
Lean 4 and proves properties of the embedded definitions.

Conventions of the embedding:
* A wire byte is a `Nat` (values kept below 256 by construction where the
  Rust type is `u8`); a datagram is a `List Nat`.
* Rust `String` values that appear inside decoded results are represented
  by their UTF-8 byte content (`List Nat`); `String::from_utf8` is modelled
  by the standard UTF-8 validity predicate `validUtf8`.
* Fallible Rust functions returning `Result<T, Error>` become
  `Except Error T`.  The byte getters of the `bytes::Buf` trait
  (`get_u8`, `get_u16_le`, `get_i32_le`, `get_u32_le`) assert that enough
  bytes remain and unwind on failure, so reader computations land in an
  outcome type `ROut` with a dedicated `panic` constructor.
* The UDP socket of `Client::send_query` is replaced by an explicit oracle
  (`NetOracle`) giving the outcome of the i-th send and the i-th
  timeout-bounded receive; the loop itself is transcribed verbatim and the
  embedding additionally counts the send attempts performed.
-/

namespace SampQuery

/-! ## `src/protocol.rs` — constants and `QueryType` -/

/-- `constants::SAMP_SIGNATURE`: the bytes of `b"SAMP"`. -/
def SAMP_SIGNATURE : List Nat := [83, 65, 77, 80]

/-- `constants::HEADER_SIZE`. -/
def HEADER_SIZE : Nat := 11

/-- `constants::MAX_PACKET_SIZE`. -/
def MAX_PACKET_SIZE : Nat := 2048

/-- `constants::DEFAULT_TIMEOUT_MS`. -/
def DEFAULT_TIMEOUT_MS : Nat := 1000

/-- `constants::MAX_RETRIES`. -/
def MAX_RETRIES : Nat := 3

/-- `QueryType` from `src/protocol.rs`. -/
inductive QueryType where
  | Information
  | Rules
  | ClientList
  | DetailedPlayerInfo
  | Ping
  | Rcon
deriving DecidableEq, Repr

/-- `QueryType::opcode` (byte values of `'i' 'r' 'c' 'd' 'p' 'x'`). -/
def QueryType.opcode : QueryType → Nat
  | .Information => 105
  | .Rules => 114
  | .ClientList => 99
  | .DetailedPlayerInfo => 100
  | .Ping => 112
  | .Rcon => 120

/-- `QueryType::from_opcode`. -/
def QueryType.from_opcode : Nat → Option QueryType
  | 105 => some .Information
  | 114 => some .Rules
  | 99 => some .ClientList
  | 100 => some .DetailedPlayerInfo
  | 112 => some .Ping
  | 120 => some .Rcon
  | _ => none

/-! ## `src/error.rs` — the error enum

`std::io::Error` payloads are abstracted to their `ErrorKind`-like tag;
only `UnexpectedEof` (produced by `read_exact` at end of input) is
distinguished.  `FromUtf8Error` and `AddrParseError` payloads carry no
information the library inspects and are dropped. -/

inductive IoErrorKind where
  | UnexpectedEof
  | OtherIo
deriving DecidableEq, Repr

/-- `Error` from `src/error.rs`.  The constructor list is exactly the
variant list of the Rust enum; there is no variant named
`UnsupportedAddress`, `InvalidArgument` or `ShortRead`. -/
inductive Error where
  | AddrParse
  | Bind (e : IoErrorKind)
  | Connect (e : IoErrorKind)
  | Timeout
  | Send (e : IoErrorKind)
  | Receive (e : IoErrorKind)
  | InvalidResponse (s : String)
  | Utf8
  | ServerError (s : String)
  | RconAuthFailed
  | InvalidQueryType (s : String)
  | Io (e : IoErrorKind)
  | Other (s : String)
deriving DecidableEq, Repr

/-! ## Socket addresses (`std::net::SocketAddr`, reduced to what the
library reads from it: the IP — IPv4 octets or an opaque IPv6 — and the
16-bit port). -/

inductive IpAddr where
  | V4 (a b c d : Nat)
  | V6
deriving DecidableEq, Repr

structure SocketAddr where
  ip : IpAddr
  port : Nat
deriving DecidableEq, Repr

/-! ## `src/packet.rs` — request builders and response validation

A `Packet` is its raw byte content (`BytesMut` ⇒ `List Nat`). -/

/-- `BufMut::put_u16_le` after an `as u16` cast. -/
def put_u16_le (n : Nat) : List Nat := [n % 65536 % 256, n % 65536 / 256 % 256]

/-- `Packet::create_query`: `SAMP` signature, four IPv4 octets, port
low byte then high byte, opcode.  IPv6 peers are rejected. -/
def Packet.create_query (server_addr : SocketAddr) (query_type : QueryType) :
    Except Error (List Nat) :=
  match server_addr.ip with
  | .V4 a b c d =>
      .ok (SAMP_SIGNATURE ++ [a, b, c, d]
        ++ [server_addr.port % 256, server_addr.port / 256 % 256]
        ++ [query_type.opcode])
  | .V6 => .error (.InvalidResponse "IPv6 addresses are not supported")

/-- `Packet::create_rcon_query`.  `password` and `command` are the UTF-8
bytes of the Rust `&str` arguments, so `.length` is Rust's `str::len`. -/
def Packet.create_rcon_query (server_addr : SocketAddr)
    (password command : List Nat) : Except Error (List Nat) :=
  if password.length > 255 then
    .error (.InvalidResponse "RCON password too long (max 255 characters)")
  else if command.length > 1024 then
    .error (.InvalidResponse "RCON command too long (max 1024 characters)")
  else
    match Packet.create_query server_addr .Rcon with
    | .error e => .error e
    | .ok p =>
        .ok (p ++ put_u16_le password.length ++ password
          ++ put_u16_le command.length ++ command)

/-- `Packet::create_ping_query`: the header for opcode `p` followed by the
4 random bytes.  The `rand::thread_rng` draw is the `random_bytes`
parameter; the Rust function returns the packet together with the nonce. -/
def Packet.create_ping_query (server_addr : SocketAddr)
    (random_bytes : List Nat) : Except Error (List Nat × List Nat) :=
  match Packet.create_query server_addr .Ping with
  | .error e => .error e
  | .ok p => .ok (p ++ random_bytes, random_bytes)

/-- `Packet::validate_response`. -/
def Packet.validate_response (data : List Nat) : Except Error Unit :=
  if data.length < HEADER_SIZE then
    .error (.InvalidResponse "Response packet is too short")
  else if data.take 4 ≠ SAMP_SIGNATURE then
    .error (.InvalidResponse "Invalid SAMP signature in response")
  else
    .ok ()

/-- `Packet::parse_response` (the `_query_type` argument is unused in the
source as well). -/
def Packet.parse_response (data : List Nat) (_query_type : QueryType) :
    Except Error (List Nat) :=
  match Packet.validate_response data with
  | .error e => .error e
  | .ok _ => .ok (data.drop HEADER_SIZE)

/-! ## Cursor readers (`bytes::Buf` over `std::io::Cursor` and the
string helpers of `packet::utils`)

`std::io::Cursor` is a byte slice plus a position.  The `bytes::Buf`
getters (`get_u8`, `get_u16_le`, `get_i32_le`, `get_u32_le`) assert
`remaining() >= width` and unwind (panic) when the assertion fails, so a
reader computation's outcome is `ok value cursor`, `err e` (a returned
`Err`) or `panic`. -/

structure Cursor where
  data : List Nat
  pos : Nat
deriving DecidableEq, Repr

/-- `Buf::remaining` for `io::Cursor`. -/
def Cursor.remaining (c : Cursor) : Nat := c.data.length - c.pos

/-- Byte at offset `i` from the cursor position. -/
def Cursor.byte (c : Cursor) (i : Nat) : Nat := c.data.getD (c.pos + i) 0

inductive ROut (α : Type) where
  | ok (a : α) (c : Cursor)
  | err (e : Error)
  | panic
deriving DecidableEq, Repr

/-- Reader computations: a cursor-passing state monad with error and
panic outcomes. -/
def RM (α : Type) : Type := Cursor → ROut α

def RM.pure (a : α) : RM α := fun c => .ok a c

def RM.bind (m : RM α) (f : α → RM β) : RM β := fun c =>
  match m c with
  | .ok a c' => f a c'
  | .err e => .err e
  | .panic => .panic

def RM.fail (e : Error) : RM α := fun _ => .err e

/-- `bytes::Buf::get_u8`: asserts one remaining byte, panics otherwise. -/
def get_u8 : RM Nat := fun c =>
  if 1 ≤ c.remaining then .ok (c.byte 0) ⟨c.data, c.pos + 1⟩ else .panic

/-- `bytes::Buf::get_u16_le`. -/
def get_u16_le : RM Nat := fun c =>
  if 2 ≤ c.remaining then
    .ok (c.byte 0 + 256 * c.byte 1) ⟨c.data, c.pos + 2⟩
  else .panic

/-- `bytes::Buf::get_u32_le`. -/
def get_u32_le : RM Nat := fun c =>
  if 4 ≤ c.remaining then
    .ok (c.byte 0 + 256 * c.byte 1 + 65536 * c.byte 2 + 16777216 * c.byte 3)
      ⟨c.data, c.pos + 4⟩
  else .panic

/-- `bytes::Buf::get_i32_le`: the same four bytes reinterpreted as a
two's-complement signed 32-bit integer. -/
def get_i32_le : RM Int := fun c =>
  if 4 ≤ c.remaining then
    let v : Nat := c.byte 0 + 256 * c.byte 1 + 65536 * c.byte 2 + 16777216 * c.byte 3
    .ok (if v < 2147483648 then (v : Int) else (v : Int) - 4294967296)
      ⟨c.data, c.pos + 4⟩
  else .panic

/-- `std::io::Read::read_exact` into a buffer of `n` bytes: returns
`ErrorKind::UnexpectedEof` (surfacing as `Error::Io` through `?` and
`#[from] io::Error`) when fewer than `n` bytes remain. -/
def read_exact (n : Nat) : RM (List Nat) := fun c =>
  if n ≤ c.remaining then
    .ok ((c.data.drop c.pos).take n) ⟨c.data, c.pos + n⟩
  else .err (.Io .UnexpectedEof)

/-- A continuation byte (or more generally a byte) within `[lo, hi]`. -/
def inRange (lo hi b : Nat) : Bool := lo ≤ b && b ≤ hi

/-- UTF-8 validity of a byte sequence, as checked by
`String::from_utf8` (RFC 3629: no surrogates, no overlong forms, up to
U+10FFFF). -/
def validUtf8 : List Nat → Bool
  | [] => true
  | b :: rest =>
    if b ≤ 0x7F then validUtf8 rest
    else if inRange 0xC2 0xDF b then
      match rest with
      | c1 :: r => inRange 0x80 0xBF c1 && validUtf8 r
      | [] => false
    else if inRange 0xE0 0xEF b then
      match rest with
      | c1 :: c2 :: r =>
          (if b = 0xE0 then inRange 0xA0 0xBF c1
           else if b = 0xED then inRange 0x80 0x9F c1
           else inRange 0x80 0xBF c1)
            && inRange 0x80 0xBF c2 && validUtf8 r
      | _ => false
    else if inRange 0xF0 0xF4 b then
      match rest with
      | c1 :: c2 :: c3 :: r =>
          (if b = 0xF0 then inRange 0x90 0xBF c1
           else if b = 0xF4 then inRange 0x80 0x8F c1
           else inRange 0x80 0xBF c1)
            && inRange 0x80 0xBF c2 && inRange 0x80 0xBF c3 && validUtf8 r
      | _ => false
    else false

/-- `String::from_utf8(bytes).map_err(Error::from)`: a Rust `String` is
represented by its UTF-8 byte content. -/
def from_utf8 (bytes : List Nat) : Except Error (List Nat) :=
  if validUtf8 bytes then .ok bytes else .error .Utf8

/-- Lift an `Except` into a reader step (Rust's `?`). -/
def RM.ofExcept (x : Except Error α) : RM α := fun c =>
  match x with
  | .ok a => .ok a c
  | .error e => .err e

/-- `packet::utils::read_length_prefixed_string` (u8 length prefix). -/
def read_length_prefixed_string : RM (List Nat) :=
  RM.bind get_u8 fun length =>
  if length > MAX_PACKET_SIZE then
    RM.fail (.InvalidResponse "String length exceeds maximum packet size")
  else
    RM.bind (read_exact length) fun bytes =>
    RM.ofExcept (from_utf8 bytes)

/-- `packet::utils::read_length_prefixed_string_16` (u16-LE length
prefix). -/
def read_length_prefixed_string_16 : RM (List Nat) :=
  RM.bind get_u16_le fun length =>
  if length > MAX_PACKET_SIZE then
    RM.fail (.InvalidResponse "String length exceeds maximum packet size")
  else
    RM.bind (read_exact length) fun bytes =>
    RM.ofExcept (from_utf8 bytes)

/-- `packet::utils::read_length_prefixed_string_32` (u32-LE length
prefix). -/
def read_length_prefixed_string_32 : RM (List Nat) :=
  RM.bind get_u32_le fun length =>
  if length > MAX_PACKET_SIZE then
    RM.fail (.InvalidResponse "String length exceeds maximum packet size")
  else
    RM.bind (read_exact length) fun bytes =>
    RM.ofExcept (from_utf8 bytes)

/-! ## `src/types.rs` — typed results (strings as UTF-8 byte lists;
`HashMap<String, String>` as the list of insertions in order, which the
claims never inspect beyond construction). -/

structure ServerInfo where
  password : Bool
  players : Nat
  max_players : Nat
  hostname : List Nat
  gamemode : List Nat
  language : List Nat
deriving DecidableEq, Repr

structure ServerRules where
  rules : List (List Nat × List Nat)
deriving DecidableEq, Repr

structure Player where
  name : List Nat
  score : Int
deriving DecidableEq, Repr

structure PlayerList where
  players : List Player
deriving DecidableEq, Repr

structure DetailedPlayer where
  id : Nat
  name : List Nat
  score : Int
  ping : Nat
deriving DecidableEq, Repr

structure DetailedPlayerList where
  players : List DetailedPlayer
deriving DecidableEq, Repr

structure PingInfo where
  ping_ms : Nat
deriving DecidableEq, Repr

structure RconResponse where
  message : List Nat
deriving DecidableEq, Repr

/-! ## Typed payload decoders (the cursor portions of
`Client::query_info`, `query_rules`, `query_client_list`,
`query_detailed_player_info`), run on the stripped payload. -/

/-- The cursor body of `Client::query_info` (client.rs lines 93–110). -/
def decode_info : RM ServerInfo :=
  RM.bind get_u8 fun pw =>
  RM.bind get_u16_le fun players =>
  RM.bind get_u16_le fun max_players =>
  RM.bind read_length_prefixed_string_32 fun hostname =>
  RM.bind read_length_prefixed_string_32 fun gamemode =>
  RM.bind read_length_prefixed_string_32 fun language =>
  RM.pure ⟨pw ≠ 0, players, max_players, hostname, gamemode, language⟩

/-- The `for _ in 0..rule_count` loop of `Client::query_rules`; the i-th
insertion into the `HashMap` becomes the i-th list entry. -/
def decode_rules_loop : Nat → RM (List (List Nat × List Nat))
  | 0 => RM.pure []
  | n + 1 =>
      RM.bind read_length_prefixed_string fun name =>
      RM.bind read_length_prefixed_string fun value =>
      RM.bind (decode_rules_loop n) fun rest =>
      RM.pure ((name, value) :: rest)

/-- The cursor body of `Client::query_rules`. -/
def decode_rules : RM ServerRules :=
  RM.bind get_u16_le fun rule_count =>
  RM.bind (decode_rules_loop rule_count) fun rules =>
  RM.pure ⟨rules⟩

/-- The `for _ in 0..player_count` loop of `Client::query_client_list`. -/
def decode_client_list_loop : Nat → RM (List Player)
  | 0 => RM.pure []
  | n + 1 =>
      RM.bind read_length_prefixed_string fun name =>
      RM.bind get_i32_le fun score =>
      RM.bind (decode_client_list_loop n) fun rest =>
      RM.pure (⟨name, score⟩ :: rest)

/-- The cursor body of `Client::query_client_list`. -/
def decode_client_list : RM PlayerList :=
  RM.bind get_u16_le fun player_count =>
  RM.bind (decode_client_list_loop player_count) fun players =>
  RM.pure ⟨players⟩

/-- The `for _ in 0..player_count` loop of
`Client::query_detailed_player_info`. -/
def decode_detailed_loop : Nat → RM (List DetailedPlayer)
  | 0 => RM.pure []
  | n + 1 =>
      RM.bind get_u8 fun id =>
      RM.bind read_length_prefixed_string fun name =>
      RM.bind get_i32_le fun score =>
      RM.bind get_u32_le fun ping =>
      RM.bind (decode_detailed_loop n) fun rest =>
      RM.pure (⟨id, name, score, ping⟩ :: rest)

/-- The cursor body of `Client::query_detailed_player_info`. -/
def decode_detailed : RM DetailedPlayerList :=
  RM.bind get_u16_le fun player_count =>
  RM.bind (decode_detailed_loop player_count) fun players =>
  RM.pure ⟨players⟩

/-- Run a decoder on a stripped payload (`Cursor::new(&data)`). -/
def run_decoder (m : RM α) (data : List Nat) : ROut α := m ⟨data, 0⟩

/-! ## `src/client.rs` — the transport client

The UDP socket and clock are replaced by an oracle: the outcome of the
i-th `send` call, the outcome of the i-th timeout-bounded `recv` wait
(a datagram already truncated to the received size, an OS receive error,
or elapse of `timeout_ms`), the 4 bytes drawn by `rand::thread_rng` in
`create_ping_query`, and the `Instant::elapsed` millisecond reading of
`query_ping`.  The embedding of each method additionally returns the
number of send attempts it performed. -/

inductive RecvOutcome where
  | received (bytes : List Nat)
  | recvErr (e : IoErrorKind)
  | timedOut
deriving Repr

structure NetOracle where
  send : Nat → Option IoErrorKind
  recv : Nat → RecvOutcome
  rng4 : List Nat
  elapsed_ms : Nat

/-- Outcome of a client method: a value, a returned error, or an unwind
from a failed `bytes::Buf` assertion inside the decoder. -/
inductive COut (α : Type) where
  | ok (a : α)
  | err (e : Error)
  | panic
deriving DecidableEq, Repr

def COut.map (f : α → β) : COut α → COut β
  | .ok a => .ok (f a)
  | .err e => .err e
  | .panic => .panic

def COut.ofROut : ROut α → COut α
  | .ok a _ => .ok a
  | .err e => .err e
  | .panic => .panic

/-- The `while retries < self.config.max_retries` loop of
`Client::send_query`; `retries` and `sends` are the loop counter and the
number of sends performed so far, and the first component of the result
is the total number of send attempts. -/
def send_query_go (o : NetOracle) (max_retries : Nat) (retries sends : Nat) :
    Nat × Except Error (List Nat) :=
  if retries < max_retries then
    match o.send sends with
    | some e => (sends + 1, .error (.Send e))
    | none =>
        match o.recv sends with
        | .received bytes => (sends + 1, .ok bytes)
        | .recvErr e => (sends + 1, .error (.Receive e))
        | .timedOut => send_query_go o max_retries (retries + 1) (sends + 1)
  else
    (sends, .error .Timeout)
termination_by max_retries - retries

/-- `Client::send_query`. -/
def Client.send_query (o : NetOracle) (max_retries : Nat) :
    Nat × Except Error (List Nat) :=
  send_query_go o max_retries 0 0

/-- Shared shape of the four plain query methods: build the request,
run `send_query`, `parse_response`, then the cursor decoder. -/
def Client.run_query (o : NetOracle) (addr : SocketAddr)
    (max_retries : Nat) (qt : QueryType) (dec : RM α) : Nat × COut α :=
  match Packet.create_query addr qt with
  | .error e => (0, .err e)
  | .ok _packet =>
      match Client.send_query o max_retries with
      | (s, .error e) => (s, .err e)
      | (s, .ok response) =>
          match Packet.parse_response response qt with
          | .error e => (s, .err e)
          | .ok data => (s, COut.ofROut (run_decoder dec data))

/-- `Client::query_info`. -/
def Client.query_info (o : NetOracle) (addr : SocketAddr) (max_retries : Nat) :
    Nat × COut ServerInfo :=
  Client.run_query o addr max_retries .Information decode_info

/-- `Client::query_rules`. -/
def Client.query_rules (o : NetOracle) (addr : SocketAddr) (max_retries : Nat) :
    Nat × COut ServerRules :=
  Client.run_query o addr max_retries .Rules decode_rules

/-- `Client::query_client_list`. -/
def Client.query_client_list (o : NetOracle) (addr : SocketAddr)
    (max_retries : Nat) : Nat × COut PlayerList :=
  Client.run_query o addr max_retries .ClientList decode_client_list

/-- `Client::query_detailed_player_info`. -/
def Client.query_detailed_player_info (o : NetOracle) (addr : SocketAddr)
    (max_retries : Nat) : Nat × COut DetailedPlayerList :=
  Client.run_query o addr max_retries .DetailedPlayerInfo decode_detailed

/-- `Client::query_ping` (client.rs lines 182–201): builds the ping
request with the oracle's 4 random bytes, sends, strips the header and
compares the first four payload bytes with the nonce. -/
def Client.query_ping (o : NetOracle) (addr : SocketAddr) (max_retries : Nat) :
    Nat × COut PingInfo :=
  match Packet.create_ping_query addr o.rng4 with
  | .error e => (0, .err e)
  | .ok (_packet, random_bytes) =>
      match Client.send_query o max_retries with
      | (s, .error e) => (s, .err e)
      | (s, .ok response) =>
          match Packet.parse_response response .Ping with
          | .error e => (s, .err e)
          | .ok data =>
              if data.length < 4 ∨ data.take 4 ≠ random_bytes then
                (s, .err (.InvalidResponse "Invalid ping response"))
              else
                (s, .ok ⟨o.elapsed_ms⟩)

/-- `Client::rcon_command`. -/
def Client.rcon_command (o : NetOracle) (addr : SocketAddr)
    (password command : List Nat) (max_retries : Nat) :
    Nat × COut RconResponse :=
  match Packet.create_rcon_query addr password command with
  | .error e => (0, .err e)
  | .ok _packet =>
      match Client.send_query o max_retries with
      | (s, .error e) => (s, .err e)
      | (s, .ok response) =>
          match Packet.parse_response response .Rcon with
          | .error e => (s, .err e)
          | .ok data =>
              if data.isEmpty then (s, .err .RconAuthFailed)
              else
                match from_utf8 data with
                | .ok message => (s, .ok ⟨message⟩)
                | .error e => (s, .err e)

/-- The type-erased result of `Client::query`
(`Box<dyn Any>` as a tagged sum of the five result types). -/
inductive AnyResult where
  | info (v : ServerInfo)
  | rules (v : ServerRules)
  | clients (v : PlayerList)
  | detailed (v : DetailedPlayerList)
  | ping (v : PingInfo)
deriving Repr

/-- `Client::query` (client.rs lines 218–246): dispatch on the query
type; the `Rcon` arm returns `InvalidQueryType` at once, before any
packet is built or datagram sent. -/
def Client.query (o : NetOracle) (addr : SocketAddr) (max_retries : Nat) :
    QueryType → Nat × COut AnyResult
  | .Information =>
      match Client.query_info o addr max_retries with
      | (s, r) => (s, r.map .info)
  | .Rules =>
      match Client.query_rules o addr max_retries with
      | (s, r) => (s, r.map .rules)
  | .ClientList =>
      match Client.query_client_list o addr max_retries with
      | (s, r) => (s, r.map .clients)
  | .DetailedPlayerInfo =>
      match Client.query_detailed_player_info o addr max_retries with
      | (s, r) => (s, r.map .detailed)
  | .Ping =>
      match Client.query_ping o addr max_retries with
      | (s, r) => (s, r.map .ping)
  | .Rcon =>
      (0, .err (.InvalidQueryType "RCON queries require a password and command"))

/-! ## Theorems -/

/-- **C9.** For every query kind `k` among the six variants,
`QueryType::from_opcode (k.opcode()) = Some k`: `from_opcode` is a left
inverse of `opcode` on all six kinds, which also forces the six opcode
bytes to be pairwise distinct. -/
theorem C9_from_opcode_left_inverse :
    ∀ k : QueryType, QueryType.from_opcode k.opcode = some k := by
  intro k
  cases k <;> rfl

/-- **C6 (amended).** For every peer whose IP is not IPv4 and every query
kind, `Packet::create_query` fails — but with
`Error::InvalidResponse("IPv6 addresses are not supported")`: the `Error`
enum of `src/error.rs` has no `UnsupportedAddress` variant at all. -/
theorem C6_create_query_ipv6 (port : Nat) (qt : QueryType) :
    Packet.create_query ⟨.V6, port⟩ qt =
      .error (.InvalidResponse "IPv6 addresses are not supported") := rfl

/-- **C6 counterexample.** At the concrete IPv6 peer `[::1]:7777` with the
`Information` kind, the error returned is the `InvalidResponse` variant,
not a variant named `UnsupportedAddress` (no such variant exists in
`Error`), refuting the claim as stated. -/
theorem C6_counterexample :
    Packet.create_query ⟨.V6, 7777⟩ .Information =
      .error (.InvalidResponse "IPv6 addresses are not supported") := rfl

/-- **C4.** For every IPv4 peer and every query kind `k`,
`Packet::create_query` succeeds, and the produced datagram is exactly the
11 bytes `'S','A','M','P'`, the four IPv4 octets in order, the port low
byte then high byte (little-endian), and the opcode of `k`. -/
theorem C4_create_query_ipv4 (a b c d port : Nat) (qt : QueryType)
    (hport : port < 65536) :
    Packet.create_query ⟨.V4 a b c d, port⟩ qt =
      .ok [83, 65, 77, 80, a, b, c, d, port % 256, port / 256, qt.opcode] ∧
    ([83, 65, 77, 80, a, b, c, d, port % 256, port / 256, qt.opcode] :
      List Nat).length = 11 := by
  have hdiv : port / 256 % 256 = port / 256 := by omega
  refine ⟨?_, rfl⟩
  simp [Packet.create_query, SAMP_SIGNATURE, hdiv]

/-- Witness for C4 at peer `10.0.0.1:7777` and kind `Ping`
(`7777 = 0x1E61`, so low byte 97, high byte 30). -/
theorem C4_witness :
    Packet.create_query ⟨.V4 10 0 0 1, 7777⟩ .Ping =
      .ok [83, 65, 77, 80, 10, 0, 0, 1, 97, 30, 112] :=
  (C4_create_query_ipv4 10 0 0 1 7777 .Ping (by norm_num)).1

/-- **C3.** `validate_response` followed by `parse_response` succeeds
exactly on inputs of length at least 11 whose first four bytes are
`S`,`A`,`M`,`P`, returning precisely the bytes after the first 11;
inputs shorter than 11 bytes fail with the too-short `InvalidResponse`
error and inputs of sufficient length with a wrong leading four bytes
fail with the bad-magic `InvalidResponse` error. -/
theorem C3_parse_response_cases (data : List Nat) (qt : QueryType) :
    (data.length < 11 →
      Packet.parse_response data qt =
        .error (.InvalidResponse "Response packet is too short")) ∧
    (11 ≤ data.length → data.take 4 ≠ SAMP_SIGNATURE →
      Packet.parse_response data qt =
        .error (.InvalidResponse "Invalid SAMP signature in response")) ∧
    (11 ≤ data.length → data.take 4 = SAMP_SIGNATURE →
      Packet.parse_response data qt = .ok (data.drop 11)) := by
  refine ⟨fun h => ?_, fun h1 h2 => ?_, fun h1 h2 => ?_⟩
  · simp [Packet.parse_response, Packet.validate_response, HEADER_SIZE, h]
  · simp [Packet.parse_response, Packet.validate_response, HEADER_SIZE,
      Nat.not_lt.mpr h1, h2]
  · simp [Packet.parse_response, Packet.validate_response, HEADER_SIZE,
      Nat.not_lt.mpr h1, h2]

/-- Witness for C3: a 13-byte datagram with the valid header is stripped
to its last two bytes. -/
theorem C3_witness :
    Packet.parse_response [83, 65, 77, 80, 127, 3, 2, 1, 97, 30, 114, 9, 9]
      .Rules = .ok [9, 9] :=
  (C3_parse_response_cases [83, 65, 77, 80, 127, 3, 2, 1, 97, 30, 114, 9, 9]
    .Rules).2.2 (by norm_num) (by decide)

/-- **C2 counterexample.** On the empty payload, the `Information`
decoder's first fixed-width read (`bytes::Buf::get_u8`) fails its
remaining-bytes assertion and the decoder unwinds (outcome `panic`): it
does not return a `ShortRead` error — no such variant exists in `Error` —
nor any other error value, refuting the claim as stated. -/
theorem C2_counterexample : run_decoder decode_info [] = .panic := rfl

/-- **C2 (amended).** When the remaining payload bytes are fewer than the
width of the next fixed-width integer read, the `bytes::Buf` getters
(`get_u8`, `get_u16_le`, `get_i32_le`, `get_u32_le`) panic (assertion
failure) rather than returning an error value; the only underflow that is
returned as an error is `read_exact` inside the string readers, which
yields `Error::Io(UnexpectedEof)`.  In particular the `Information`
decoder panics on every payload shorter than its 5 leading fixed-width
bytes. -/
theorem C2_fixed_width_underflow :
    (∀ c : Cursor, c.remaining < 1 → get_u8 c = .panic) ∧
    (∀ c : Cursor, c.remaining < 2 → get_u16_le c = .panic) ∧
    (∀ c : Cursor, c.remaining < 4 → get_i32_le c = .panic) ∧
    (∀ c : Cursor, c.remaining < 4 → get_u32_le c = .panic) ∧
    (∀ (c : Cursor) (n : Nat), c.remaining < n →
      read_exact n c = .err (.Io .UnexpectedEof)) ∧
    (∀ data : List Nat, data.length < 5 → run_decoder decode_info data = .panic) := by
  refine ⟨fun c h => ?_, fun c h => ?_, fun c h => ?_, fun c h => ?_,
    fun c n h => ?_, fun data h => ?_⟩
  · simp [get_u8, Nat.not_le.mpr h]
  · simp [get_u16_le, Nat.not_le.mpr h]
  · simp [get_i32_le, Nat.not_le.mpr h]
  · simp [get_u32_le, Nat.not_le.mpr h]
  · simp [read_exact, Nat.not_le.mpr h]
  · match data, h with
    | [], _ => rfl
    | [a], _ => rfl
    | [a, b], _ => rfl
    | [a, b, c], _ => rfl
    | [a, b, c, d], _ => rfl

/-- Witness for C2 at a concrete exhausted cursor. -/
theorem C2_witness : get_u8 ⟨[7], 1⟩ = .panic :=
  C2_fixed_width_underflow.1 ⟨[7], 1⟩ (by decide)

/-- **C7 counterexample.** A 256-byte password is rejected, but with
`Error::InvalidResponse("RCON password too long (max 255 characters)")`:
the `Error` enum of `src/error.rs` has no `InvalidArgument` variant at
all, refuting the claim as stated. -/
theorem C7_counterexample :
    Packet.create_rcon_query ⟨.V4 127 0 0 1, 7777⟩ (List.replicate 256 97) [99] =
      .error (.InvalidResponse "RCON password too long (max 255 characters)") := by
  rw [Packet.create_rcon_query, List.length_replicate]
  norm_num

/-- **C7 (amended).** `Packet::create_rcon_query` rejects every password
longer than 255 bytes and (password in bounds) every command longer than
1024 bytes — but with `Error::InvalidResponse` carrying the respective
message, not an `InvalidArgument` kind (no such variant exists); and for
every IPv4 peer with password at most 255 bytes and command at most 1024
bytes it succeeds, producing the 11-byte header followed by the u16-LE
length-prefixed password and the u16-LE length-prefixed command. -/
theorem C7_create_rcon_query_bounds :
    (∀ (addr : SocketAddr) (password command : List Nat),
      255 < password.length →
      Packet.create_rcon_query addr password command =
        .error (.InvalidResponse "RCON password too long (max 255 characters)")) ∧
    (∀ (addr : SocketAddr) (password command : List Nat),
      password.length ≤ 255 → 1024 < command.length →
      Packet.create_rcon_query addr password command =
        .error (.InvalidResponse "RCON command too long (max 1024 characters)")) ∧
    (∀ (a b c d port : Nat) (password command : List Nat),
      port < 65536 → password.length ≤ 255 → command.length ≤ 1024 →
      Packet.create_rcon_query ⟨.V4 a b c d, port⟩ password command =
        .ok ([83, 65, 77, 80, a, b, c, d, port % 256, port / 256, 120]
          ++ put_u16_le password.length ++ password
          ++ put_u16_le command.length ++ command)) := by
  refine ⟨fun addr pw cmd h => ?_, fun addr pw cmd h1 h2 => ?_,
    fun a b c d port pw cmd hport h1 h2 => ?_⟩
  · simp [Packet.create_rcon_query, h]
  · simp [Packet.create_rcon_query, Nat.not_lt.mpr h1, h2]
  · have hdiv : port / 256 % 256 = port / 256 := by omega
    simp [Packet.create_rcon_query, Nat.not_lt.mpr h1, Nat.not_lt.mpr h2,
      Packet.create_query, SAMP_SIGNATURE, QueryType.opcode, hdiv]

/-- Witness for C7: password `"p"`, command `"cc"` against
`127.0.0.1:7777`. -/
theorem C7_witness :
    Packet.create_rcon_query ⟨.V4 127 0 0 1, 7777⟩ [112] [99, 99] =
      .ok ([83, 65, 77, 80, 127, 0, 0, 1, 97, 30, 120]
        ++ put_u16_le 1 ++ [112] ++ put_u16_le 2 ++ [99, 99]) :=
  C7_create_rcon_query_bounds.2.2 127 0 0 1 7777 [112] [99, 99]
    (by norm_num) (by decide) (by decide)

/-- Unfolding lemma for applied reader binds. -/
theorem RM.bind_eq (m : RM α) (f : α → RM β) (c : Cursor) :
    RM.bind m f c =
      match m c with
      | .ok a c' => f a c'
      | .err e => .err e
      | .panic => .panic := rfl

/-- **C8.** The u16-LE and u32-LE length-prefixed string readers reject
every length prefix strictly greater than `MAX_PACKET_SIZE = 2048` with
an `InvalidResponse` error regardless of what bytes follow the prefix
(i.e. before attempting to read the string), and accept a length prefix
equal to 2048: with prefix 2048 the length error is never produced, and
when 2048 valid-UTF-8 bytes follow the prefix the read succeeds. -/
theorem C8_length_prefix_bounds :
    (∀ (b0 b1 : Nat) (rest : List Nat), 2048 < b0 + 256 * b1 →
      run_decoder read_length_prefixed_string_16 (b0 :: b1 :: rest) =
        .err (.InvalidResponse "String length exceeds maximum packet size")) ∧
    (∀ rest : List Nat,
      run_decoder read_length_prefixed_string_16 (0 :: 8 :: rest) ≠
        .err (.InvalidResponse "String length exceeds maximum packet size")) ∧
    (∀ rest : List Nat, 2048 ≤ rest.length → validUtf8 (rest.take 2048) = true →
      run_decoder read_length_prefixed_string_16 (0 :: 8 :: rest) =
        .ok (rest.take 2048) ⟨0 :: 8 :: rest, 2050⟩) ∧
    (∀ (b0 b1 b2 b3 : Nat) (rest : List Nat),
      2048 < b0 + 256 * b1 + 65536 * b2 + 16777216 * b3 →
      run_decoder read_length_prefixed_string_32 (b0 :: b1 :: b2 :: b3 :: rest) =
        .err (.InvalidResponse "String length exceeds maximum packet size")) ∧
    (∀ rest : List Nat,
      run_decoder read_length_prefixed_string_32 (0 :: 8 :: 0 :: 0 :: rest) ≠
        .err (.InvalidResponse "String length exceeds maximum packet size")) ∧
    (∀ rest : List Nat, 2048 ≤ rest.length → validUtf8 (rest.take 2048) = true →
      run_decoder read_length_prefixed_string_32 (0 :: 8 :: 0 :: 0 :: rest) =
        .ok (rest.take 2048) ⟨0 :: 8 :: 0 :: 0 :: rest, 2052⟩) := by
  refine ⟨fun b0 b1 rest h => ?_, fun rest => ?_, fun rest h1 h2 => ?_,
    fun b0 b1 b2 b3 rest h => ?_, fun rest => ?_, fun rest h1 h2 => ?_⟩
  · simp [run_decoder, read_length_prefixed_string_16, RM.bind, RM.fail,
      get_u16_le, Cursor.remaining, Cursor.byte, MAX_PACKET_SIZE, h]
  · rw [run_decoder, read_length_prefixed_string_16, RM.bind_eq]
    have hu : get_u16_le ⟨0 :: 8 :: rest, 0⟩ =
        .ok 2048 ⟨0 :: 8 :: rest, 2⟩ := by
      simp [get_u16_le, Cursor.remaining, Cursor.byte]
    rw [hu]
    norm_num [MAX_PACKET_SIZE]
    rw [RM.bind_eq]
    by_cases hlen : (2048 : Nat) ≤ Cursor.remaining ⟨0 :: 8 :: rest, 2⟩
    · rw [read_exact, if_pos hlen]
      by_cases hv : validUtf8 (List.take 2048 rest) = true <;>
        simp [RM.ofExcept, from_utf8, hv]
    · rw [read_exact, if_neg hlen]
      simp
  · rw [run_decoder, read_length_prefixed_string_16, RM.bind_eq]
    have hu : get_u16_le ⟨0 :: 8 :: rest, 0⟩ =
        .ok 2048 ⟨0 :: 8 :: rest, 2⟩ := by
      simp [get_u16_le, Cursor.remaining, Cursor.byte]
    rw [hu]
    norm_num [MAX_PACKET_SIZE]
    rw [RM.bind_eq]
    have hre : read_exact 2048 ⟨0 :: 8 :: rest, 2⟩ =
        .ok (rest.take 2048) ⟨0 :: 8 :: rest, 2050⟩ := by
      simp [read_exact, Cursor.remaining, h1]
    rw [hre]
    simp [RM.ofExcept, from_utf8, h2]
  · simp [run_decoder, read_length_prefixed_string_32, RM.bind, RM.fail,
      get_u32_le, Cursor.remaining, Cursor.byte, MAX_PACKET_SIZE, h]
  · rw [run_decoder, read_length_prefixed_string_32, RM.bind_eq]
    have hu : get_u32_le ⟨0 :: 8 :: 0 :: 0 :: rest, 0⟩ =
        .ok 2048 ⟨0 :: 8 :: 0 :: 0 :: rest, 4⟩ := by
      simp [get_u32_le, Cursor.remaining, Cursor.byte]
    rw [hu]
    norm_num [MAX_PACKET_SIZE]
    rw [RM.bind_eq]
    by_cases hlen : (2048 : Nat) ≤ Cursor.remaining ⟨0 :: 8 :: 0 :: 0 :: rest, 4⟩
    · rw [read_exact, if_pos hlen]
      by_cases hv : validUtf8 (List.take 2048 rest) = true <;>
        simp [RM.ofExcept, from_utf8, hv]
    · rw [read_exact, if_neg hlen]
      simp
  · rw [run_decoder, read_length_prefixed_string_32, RM.bind_eq]
    have hu : get_u32_le ⟨0 :: 8 :: 0 :: 0 :: rest, 0⟩ =
        .ok 2048 ⟨0 :: 8 :: 0 :: 0 :: rest, 4⟩ := by
      simp [get_u32_le, Cursor.remaining, Cursor.byte]
    rw [hu]
    norm_num [MAX_PACKET_SIZE]
    rw [RM.bind_eq]
    have hre : read_exact 2048 ⟨0 :: 8 :: 0 :: 0 :: rest, 4⟩ =
        .ok (rest.take 2048) ⟨0 :: 8 :: 0 :: 0 :: rest, 2052⟩ := by
      simp [read_exact, Cursor.remaining, h1]
    rw [hre]
    simp [RM.ofExcept, from_utf8, h2]

/-- Witness for C8: prefix `2049` (bytes `01 08`) is rejected before any
string bytes are read. -/
theorem C8_witness :
    run_decoder read_length_prefixed_string_16 [1, 8] =
      .err (.InvalidResponse "String length exceeds maximum packet size") :=
  C8_length_prefix_bounds.1 1 8 [] (by norm_num)

/-- Loop invariant of `Client::send_query` when every send succeeds and
every receive wait elapses: from loop counter `retries` with `sends`
sends already performed, the loop performs the remaining
`max_retries - retries` attempts and returns `Timeout`. -/
theorem send_query_go_all_timeout (o : NetOracle)
    (hsend : ∀ i, o.send i = none) (hrecv : ∀ i, o.recv i = .timedOut)
    (max_retries : Nat) :
    ∀ (k retries sends : Nat), max_retries - retries = k →
      send_query_go o max_retries retries sends =
        (sends + (max_retries - retries), .error .Timeout) := by
  intro k
  induction k with
  | zero =>
      intro r s h
      have hr : ¬ r < max_retries := by omega
      rw [send_query_go]
      simp [hr, h]
  | succ n ih =>
      intro r s h
      have hr : r < max_retries := by omega
      rw [send_query_go]
      simp only [hr, if_pos, hsend s, hrecv s]
      rw [ih (r + 1) (s + 1) (by omega)]
      have : s + 1 + (max_retries - (r + 1)) = s + (max_retries - r) := by omega
      rw [this]

/-- **C1.** For every configuration with `max_retries = N`, if the peer
never delivers a datagram (every receive wait elapses) and every send
succeeds, then `Client::send_query` performs exactly `N` send attempts —
each followed by one timeout-bounded receive wait — and returns the
`Timeout` error: the attempt count is `N` total, not `1 + N`. -/
theorem C1_send_query_all_timeouts (o : NetOracle) (N : Nat)
    (hsend : ∀ i, o.send i = none) (hrecv : ∀ i, o.recv i = .timedOut) :
    Client.send_query o N = (N, .error .Timeout) := by
  have h := send_query_go_all_timeout o hsend hrecv N (N - 0) 0 0 rfl
  simpa [Client.send_query] using h

/-- Witness for C1: with `max_retries = 3` and a peer that never replies,
exactly 3 send attempts are made and the result is `Timeout`. -/
theorem C1_witness :
    Client.send_query ⟨fun _ => none, fun _ => .timedOut, [0, 0, 0, 0], 0⟩ 3 =
      (3, .error .Timeout) :=
  C1_send_query_all_timeouts ⟨fun _ => none, fun _ => .timedOut, [0, 0, 0, 0], 0⟩
    3 (fun _ => rfl) (fun _ => rfl)

/-- If `send_query` returns bytes, some receive wait delivered exactly
those bytes. -/
theorem send_query_go_ok_recv (o : NetOracle) (max_retries : Nat) :
    ∀ (k retries sends : Nat), max_retries - retries = k →
      ∀ (s : Nat) (bytes : List Nat),
        send_query_go o max_retries retries sends = (s, .ok bytes) →
        ∃ i, o.recv i = .received bytes := by
  intro k
  induction k with
  | zero =>
      intro r sd h s bytes heq
      have hr : ¬ r < max_retries := by omega
      rw [send_query_go] at heq
      simp [hr] at heq
  | succ n ih =>
      intro r sd h s bytes heq
      have hr : r < max_retries := by omega
      rw [send_query_go] at heq
      simp only [hr, if_pos] at heq
      cases hs : o.send sd with
      | some e => rw [hs] at heq; simp at heq
      | none =>
          rw [hs] at heq
          cases hv : o.recv sd with
          | received b =>
              rw [hv] at heq
              simp only [Prod.mk.injEq, Except.ok.injEq] at heq
              exact ⟨sd, by rw [hv, heq.2]⟩
          | recvErr e => rw [hv] at heq; simp at heq
          | timedOut => rw [hv] at heq; exact ih (r + 1) (sd + 1) (by omega) s bytes heq

/-- A successful `parse_response` returns the bytes after the header. -/
theorem parse_response_ok_eq (data : List Nat) (qt : QueryType)
    (d : List Nat) (h : Packet.parse_response data qt = .ok d) :
    d = data.drop HEADER_SIZE := by
  rw [Packet.parse_response] at h
  cases hv : Packet.validate_response data with
  | error e => rw [hv] at h; simp at h
  | ok u => rw [hv] at h; simp at h; exact h.symm

/-- **C5.** `Client::query_ping` returns success only when the stripped
response payload has at least 4 bytes and its first 4 bytes equal the
nonce generated for the request; and whenever the delivered response
carries a stripped payload shorter than 4 bytes or whose first four bytes
differ from the sent nonce, `query_ping` returns
`InvalidResponse("Invalid ping response")`. -/
theorem C5_query_ping_nonce :
    (∀ (o : NetOracle) (a b c d port N : Nat) (resp : List Nat),
      o.send 0 = none → o.recv 0 = .received resp → 0 < N →
      11 ≤ resp.length → resp.take 4 = SAMP_SIGNATURE →
      ((resp.drop 11).length < 4 ∨ (resp.drop 11).take 4 ≠ o.rng4) →
      Client.query_ping o ⟨.V4 a b c d, port⟩ N =
        (1, .err (.InvalidResponse "Invalid ping response"))) ∧
    (∀ (o : NetOracle) (addr : SocketAddr) (N s : Nat) (info : PingInfo),
      Client.query_ping o addr N = (s, .ok info) →
      ∃ (i : Nat) (resp : List Nat), o.recv i = .received resp ∧
        4 ≤ (resp.drop 11).length ∧ (resp.drop 11).take 4 = o.rng4) := by
  constructor
  · intro o a b c d port N resp hsend hrecv hN hlen hsig hmis
    have hgo : Client.send_query o N = (1, .ok resp) := by
      rw [Client.send_query, send_query_go]
      simp [hN, hsend, hrecv]
    have hparse : Packet.parse_response resp .Ping = .ok (resp.drop 11) := by
      simp [Packet.parse_response, Packet.validate_response, HEADER_SIZE,
        Nat.not_lt.mpr hlen, hsig]
    rw [Client.query_ping]
    simp only [Packet.create_ping_query, Packet.create_query]
    rw [hgo]
    dsimp only
    rw [hparse]
    simp only [List.length_drop] at hmis
    simp [hmis]
  · intro o addr N s info h
    rw [Client.query_ping] at h
    cases hip : addr.ip with
    | V6 =>
        simp only [Packet.create_ping_query, Packet.create_query, hip] at h
        exact absurd h (by simp)
    | V4 a b c d =>
        simp only [Packet.create_ping_query, Packet.create_query, hip] at h
        cases hsq : Client.send_query o N with
        | mk s' r =>
            rw [hsq] at h
            cases r with
            | error e => exact absurd h (by simp)
            | ok response =>
                dsimp only at h
                cases hp : Packet.parse_response response .Ping with
                | error e => rw [hp] at h; exact absurd h (by simp)
                | ok data =>
                    rw [hp] at h
                    dsimp only at h
                    by_cases hc :
                        data.length < 4 ∨ data.take 4 ≠ o.rng4
                    · rw [if_pos hc] at h
                      exact absurd h (by simp)
                    · rw [if_neg hc] at h
                      push_neg at hc
                      have hdata := parse_response_ok_eq response .Ping data hp
                      obtain ⟨i, hi⟩ := send_query_go_ok_recv o N (N - 0) 0 0
                        rfl s' response hsq
                      refine ⟨i, response, hi, ?_, ?_⟩
                      · show 4 ≤ (List.drop HEADER_SIZE response).length
                        rw [← hdata]
                        exact hc.1
                      · show List.take 4 (List.drop HEADER_SIZE response) = o.rng4
                        rw [← hdata]
                        exact hc.2

/-- Witness for C5: the server echoes `1,2,3,5` for nonce `1,2,3,4`;
the call fails with the invalid-ping-response error after one attempt. -/
theorem C5_witness :
    Client.query_ping
      ⟨fun _ => none,
       fun _ => .received [83, 65, 77, 80, 127, 3, 2, 1, 97, 30, 112, 1, 2, 3, 5],
       [1, 2, 3, 4], 7⟩
      ⟨.V4 127 0 0 1, 7777⟩ 3 =
      (1, .err (.InvalidResponse "Invalid ping response")) :=
  C5_query_ping_nonce.1 _ 127 0 0 1 7777 3
    [83, 65, 77, 80, 127, 3, 2, 1, 97, 30, 112, 1, 2, 3, 5]
    rfl rfl (by norm_num) (by norm_num) (by decide) (by decide)

/-- **C10.** `Client::query` with kind `Rcon` returns the
`InvalidQueryType` error with zero send attempts (no request is built and
no datagram sent or received), and for each of the other five kinds it
delegates to the corresponding typed method, tagging that method's
result. -/
theorem C10_query_dispatch :
    (∀ (o : NetOracle) (addr : SocketAddr) (N : Nat),
      Client.query o addr N .Rcon =
        (0, .err (.InvalidQueryType
          "RCON queries require a password and command"))) ∧
    (∀ (o : NetOracle) (addr : SocketAddr) (N : Nat),
      Client.query o addr N .Information =
        ((Client.query_info o addr N).1,
         (Client.query_info o addr N).2.map .info)) ∧
    (∀ (o : NetOracle) (addr : SocketAddr) (N : Nat),
      Client.query o addr N .Rules =
        ((Client.query_rules o addr N).1,
         (Client.query_rules o addr N).2.map .rules)) ∧
    (∀ (o : NetOracle) (addr : SocketAddr) (N : Nat),
      Client.query o addr N .ClientList =
        ((Client.query_client_list o addr N).1,
         (Client.query_client_list o addr N).2.map .clients)) ∧
    (∀ (o : NetOracle) (addr : SocketAddr) (N : Nat),
      Client.query o addr N .DetailedPlayerInfo =
        ((Client.query_detailed_player_info o addr N).1,
         (Client.query_detailed_player_info o addr N).2.map .detailed)) ∧
    (∀ (o : NetOracle) (addr : SocketAddr) (N : Nat),
      Client.query o addr N .Ping =
        ((Client.query_ping o addr N).1,
         (Client.query_ping o addr N).2.map .ping)) := by
  refine ⟨?_, ?_, ?_, ?_, ?_, ?_⟩ <;> intro o addr N <;> rfl

end SampQuery
